import Mathlib

/-!
Verification of the spatiotemporal-resolution and period-selection core of the
astrobaba backend (`backend/app/utils/geo.py`, `backend/app/routers/analyze.py`,
`backend/app/routers/compute.py`).

The Python code is shallowly embedded: JSON documents returned by the HTTP
providers become an inductive `JVal`; Python floats become rationals; Python
exceptions become an explicit `Except` error channel that distinguishes the
`httpx.HTTPError` family (which the source catches) from the built-in
exceptions `ValueError`, `TypeError`, `KeyError`, `IndexError` and
`AttributeError` (which it does not); the module-level caches `_GEO_CACHE` and
`_TZ_CACHE` become explicit association lists threaded through the functions.
Network behaviour is a parameter: a world record gives, for each provider URL
the code contacts, either a transport failure or an HTTP response.
-/

namespace Astro

/-- Shallow embedding of a parsed JSON document (a Python object produced by
`Response.json()`): null, booleans, numbers (modelled as rationals), strings,
arrays and objects. -/
inductive JVal where
  | jnull
  | jbool (b : Bool)
  | jnum (q : ℚ)
  | jstr (s : String)
  | jarr (items : List JVal)
  | jobj (fields : List (String × JVal))

/-- Python truthiness of a JSON value: `None`, `False`, `0`, `""`, `[]` and
`{}` are falsy, everything else is truthy. -/
def jTruthy : JVal → Bool
  | .jnull => false
  | .jbool b => b
  | .jnum q => decide (q ≠ 0)
  | .jstr s => decide (s ≠ "")
  | .jarr l => !l.isEmpty
  | .jobj l => !l.isEmpty

/-- Python `a or b`: returns `a` if it is truthy, else `b`. -/
def pyOr (a b : JVal) : JVal := if jTruthy a then a else b

/-- Python exceptions relevant to the embedded code. `httpError` stands for
the whole `httpx.HTTPError` hierarchy (transport errors and
`HTTPStatusError` from `raise_for_status`), which is the only class the
source's `except` clauses catch; the remaining constructors are built-in
exceptions that escape those clauses. JSON decoding failure raises
`ValueError` (via `json.JSONDecodeError`). -/
inductive PyExc where
  | httpError
  | valueError
  | typeError
  | keyError
  | indexError
  | attributeError
deriving DecidableEq

/-- Outcome of one `httpx.get` call: either the request itself raises an
`httpx.HTTPError` (transport failure), or a response arrives with a status
code and a body; `body = none` models a body that `Response.json()` cannot
decode. -/
inductive HttpResult where
  | transportError
  | response (status : Nat) (body : Option JVal)

/-- The call failed in a way the source's `except httpx.HTTPError` clause
catches: a transport error, or a response whose non-2xx status makes
`raise_for_status` raise. -/
def HttpFailed : HttpResult → Prop
  | .transportError => True
  | .response st _ => ¬(200 ≤ st ∧ st ≤ 299)

/-- Python `d.get(k)` on a JSON value: for an object, the first binding of
`k` (or `None` when absent); on anything that is not a dict the attribute
lookup of `.get` raises `AttributeError`. -/
def dictGet (v : JVal) (k : String) : Except PyExc JVal :=
  match v with
  | .jobj fields =>
      match fields.lookup k with
      | some x => .ok x
      | none => .ok .jnull
  | _ => .error .attributeError

/-- Python `d.get(k, default)` with an explicit default. -/
def dictGetD (v : JVal) (k : String) (dflt : JVal) : Except PyExc JVal :=
  match v with
  | .jobj fields =>
      match fields.lookup k with
      | some x => .ok x
      | none => .ok dflt
  | _ => .error .attributeError

/-- Python `item[k]` with a string key: on a dict, `KeyError` if the key is
absent; on strings, lists, numbers, booleans and `None`, string subscripts
raise `TypeError`. -/
def pyItemGet (v : JVal) (k : String) : Except PyExc JVal :=
  match v with
  | .jobj fields =>
      match fields.lookup k with
      | some x => .ok x
      | none => .error .keyError
  | _ => .error .typeError

/-- Python `arr[0]`: first element of a list (`IndexError` when empty),
first character of a string, `KeyError` on a dict (our JSON dicts have
string keys, so integer subscripts miss), `TypeError` otherwise. -/
def pySubscript0 (v : JVal) : Except PyExc JVal :=
  match v with
  | .jarr (x :: _) => .ok x
  | .jarr [] => .error .indexError
  | .jobj _ => .error .keyError
  | .jstr s =>
      match s.data with
      | c :: _ => .ok (.jstr (String.mk [c]))
      | [] => .error .indexError
  | _ => .error .typeError

/-- Decimal-string parser backing the embedding of Python `float(str)`:
an optional sign, then digits with an optional fractional part. (Python's
`float` also accepts exponents, infinities and surrounding whitespace;
none of the code paths under verification feed it such strings.) -/
def parseDecimal? (s : String) : Option ℚ :=
  let (sgn, rest) :=
    match s.data with
    | '-' :: r => ((-1 : ℚ), r)
    | '+' :: r => ((1 : ℚ), r)
    | r => ((1 : ℚ), r)
  let ipart := rest.takeWhile Char.isDigit
  let after := rest.dropWhile Char.isDigit
  let natVal : List Char → ℚ := fun l =>
    ((l.foldl (fun acc c => 10 * acc + (c.toNat - '0'.toNat)) 0 : Nat) : ℚ)
  match after with
  | [] => if ipart.isEmpty then none else some (sgn * natVal ipart)
  | '.' :: fpart =>
      if fpart.all Char.isDigit ∧ ¬(ipart.isEmpty ∧ fpart.isEmpty) then
        some (sgn * (natVal ipart + natVal fpart / ((10 : ℚ) ^ fpart.length)))
      else none
  | _ => none

/-- Python `float(x)` on a JSON value: numbers pass through, booleans map to
0 and 1, numeric strings are parsed (`ValueError` otherwise), `None` and
containers raise `TypeError`. -/
def pyFloat (v : JVal) : Except PyExc ℚ :=
  match v with
  | .jnum q => .ok q
  | .jbool b => .ok (if b then 1 else 0)
  | .jstr s =>
      match parseDecimal? s with
      | some q => .ok q
      | none => .error .valueError
  | _ => .error .typeError

/-- Python `int(q)` on a float: truncation toward zero. -/
def pyTrunc (q : ℚ) : Int := if 0 ≤ q then Rat.floor q else Rat.ceil q

/-- Digit-string parser backing the embedding of Python `int(str)`:
an optional sign followed by digits only. -/
def parseIntStr? (s : String) : Option Int :=
  let (sgn, rest) :=
    match s.data with
    | '-' :: r => ((-1 : Int), r)
    | '+' :: r => ((1 : Int), r)
    | r => ((1 : Int), r)
  if rest.isEmpty ∨ ¬rest.all Char.isDigit then none
  else some (sgn * ((rest.foldl (fun acc c => 10 * acc + (c.toNat - '0'.toNat)) 0 : Nat) : Int))

/-- Python `int(x)` on a JSON value: floats truncate toward zero, booleans map
to 0 and 1, digit strings are parsed (`ValueError` otherwise), `None` and
containers raise `TypeError`. -/
def pyInt (v : JVal) : Except PyExc Int :=
  match v with
  | .jnum q => .ok (pyTrunc q)
  | .jbool b => .ok (if b then 1 else 0)
  | .jstr s =>
      match parseIntStr? s with
      | some n => .ok n
      | none => .error .valueError
  | _ => .error .typeError

/-- Python truthiness of `settings.locationiq_key : str | None`: set and
non-empty. -/
def keyTruthy : Option String → Bool
  | none => false
  | some s => decide (s ≠ "")

/-!  The offset formatter (`geo.py`, `format_offset`). -/

/-- Python `f"{n:02d}"` for a natural number: the decimal representation,
left-padded with zeros to a minimum width of two (wider numbers keep all
their digits). -/
def pad2 (n : Nat) : String :=
  let s := toString n
  if s.length < 2 then "0" ++ s else s

/-- Embedding of `format_offset(seconds)`: sign (`+` for nonnegative),
then zero-padded hours and minutes of the absolute value, truncating
sub-minute seconds. -/
def format_offset (seconds : Int) : String :=
  let sign := if 0 ≤ seconds then "+" else "-"
  let sec := seconds.natAbs
  let hh := sec / 3600
  let mm := (sec % 3600) / 60
  sign ++ pad2 hh ++ ":" ++ pad2 mm

/-- Decidable reading of the regular expression `^[+-]\d\x7b2\x7d:\d\x7b2\x7d$`:
exactly six characters — a sign, two digits, a colon, two digits. -/
def matchesOffsetPattern (s : String) : Bool :=
  match s.data with
  | [c0, c1, c2, c3, c4, c5] =>
      (c0 == '+' || c0 == '-') && c1.isDigit && c2.isDigit &&
        (c3 == ':') && c4.isDigit && c5.isDigit
  | _ => false

/-!  The geocoding resolver (`geo.py`, `geocode_location`). -/

/-- The dict `geocode_location` returns on success: `latitude`/`longitude`
(floats), `display_name` (whatever `item.get` produced, possibly `None`),
and — only in the Open-Meteo branch, when the provider supplies a truthy
timezone — a `timezone` key. -/
structure GeoDict where
  latitude : ℚ
  longitude : ℚ
  display_name : JVal
  timezone : Option JVal

/-- The module-level `_GEO_CACHE`: location string to
`(latitude, longitude, display_name or location)`. Assignment is modelled by
prepending, with `List.lookup` finding the most recent binding. -/
def GeoCache := List (String × (ℚ × ℚ × JVal))

/-- Network behaviour of the three geocoding endpoints `geocode_location`
contacts, together with the configured `settings.locationiq_key`. -/
structure GeoWorld where
  locationiq_key : Option String
  liq : HttpResult
  nominatim : HttpResult
  openmeteo : HttpResult

/-- Outcome of one provider block inside `geocode_location` or
`timezone_for_coords`: an escaped exception, a returned value paired with
the updated cache, or fall-through to the next block. -/
def StepResult (α γ : Type) := Except PyExc (Option (α × γ))

/-- Shared shape of the source's `try: r = httpx.get(...); r.raise_for_status();
... except httpx.HTTPError: pass` blocks: a transport error or a non-2xx
status is caught and falls through; a 2xx response whose body fails JSON
decoding raises `ValueError` (not an `httpx.HTTPError`), which escapes; a
decoded body is handed to the block's parsing code. -/
def tryProvider (r : HttpResult) (handler : JVal → StepResult α γ) : StepResult α γ :=
  match r with
  | .transportError => .ok none
  | .response st body =>
      if 200 ≤ st ∧ st ≤ 299 then
        match body with
        | none => .error .valueError
        | some j => handler j
      else .ok none

/-- Parsing code shared by the LocationIQ `/v1/search` and Nominatim
`/search` blocks: if the JSON array is truthy, take `arr[0]`, convert
`item["lat"]` and `item["lon"]` with `float`, read `item.get("display_name")`,
write `(lat, lon, display_name or location)` into `_GEO_CACHE[location]` and
return the result dict; an empty array falls through. -/
def searchArrayHandler (location : String) (cache : GeoCache) (j : JVal) :
    StepResult GeoDict GeoCache :=
  if jTruthy j then
    match pySubscript0 j with
    | .error e => .error e
    | .ok item =>
      match pyItemGet item "lat" with
      | .error e => .error e
      | .ok latv =>
        match pyFloat latv with
        | .error e => .error e
        | .ok lat =>
          match pyItemGet item "lon" with
          | .error e => .error e
          | .ok lonv =>
            match pyFloat lonv with
            | .error e => .error e
            | .ok lon =>
              match dictGet item "display_name" with
              | .error e => .error e
              | .ok dn =>
                  let out : GeoDict :=
                    { latitude := lat, longitude := lon, display_name := dn, timezone := none }
                  .ok (some (out, (location, (lat, lon, pyOr dn (.jstr location))) :: cache))
  else .ok none

/-- Parsing code of the Open-Meteo geocoding block: if the body and its
`results` list are truthy, take `results[0]`, convert `item["latitude"]` and
`item["longitude"]` with `float`, read `item.get("name")`, attach
`item.get("timezone")` when truthy, cache and return. -/
def openMeteoGeoHandler (location : String) (cache : GeoCache) (j : JVal) :
    StepResult GeoDict GeoCache :=
  if jTruthy j then
    match dictGet j "results" with
    | .error e => .error e
    | .ok res =>
      if jTruthy res then
        match pySubscript0 res with
        | .error e => .error e
        | .ok item =>
          match pyItemGet item "latitude" with
          | .error e => .error e
          | .ok latv =>
            match pyFloat latv with
            | .error e => .error e
            | .ok lat =>
              match pyItemGet item "longitude" with
              | .error e => .error e
              | .ok lonv =>
                match pyFloat lonv with
                | .error e => .error e
                | .ok lon =>
                  match dictGet item "name" with
                  | .error e => .error e
                  | .ok dn =>
                    match dictGet item "timezone" with
                    | .error e => .error e
                    | .ok tzv =>
                        let out : GeoDict :=
                          { latitude := lat, longitude := lon, display_name := dn,
                            timezone := if jTruthy tzv then some tzv else none }
                        .ok (some (out, (location, (lat, lon, pyOr dn (.jstr location))) :: cache))
      else .ok none
  else .ok none

/-- Embedding of `geocode_location(location)`. The LocationIQ block runs only
when `settings.locationiq_key` is truthy; then the `_GEO_CACHE` lookup; then
Nominatim; then Open-Meteo; `None` when everything falls through. The
result is the optional dict together with the cache state after the call. -/
def geocode_location (w : GeoWorld) (location : String) (cache : GeoCache) :
    Except PyExc (Option GeoDict × GeoCache) :=
  match (if keyTruthy w.locationiq_key then
            tryProvider w.liq (searchArrayHandler location cache)
          else .ok none) with
  | .error e => .error e
  | .ok (some (out, cache')) => .ok (some out, cache')
  | .ok none =>
    match List.lookup location cache with
    | some (lat, lon, name) =>
        .ok (some { latitude := lat, longitude := lon, display_name := name, timezone := none },
             cache)
    | none =>
      match tryProvider w.nominatim (searchArrayHandler location cache) with
      | .error e => .error e
      | .ok (some (out, cache')) => .ok (some out, cache')
      | .ok none =>
        match tryProvider w.openmeteo (openMeteoGeoHandler location cache) with
        | .error e => .error e
        | .ok (some (out, cache')) => .ok (some out, cache')
        | .ok none => .ok (none, cache)

/-!  The timezone resolver (`geo.py`, `timezone_for_coords`). -/

/-- Round-half-even on a rational, backing the embedding of Python's fixed
precision float formatting. -/
def roundHalfEven (q : ℚ) : Int :=
  let f := Rat.floor q
  let r := q - f
  if r < 1/2 then f
  else if 1/2 < r then f + 1
  else if f % 2 = 0 then f else f + 1

/-- Decimal representation of a natural number, left-padded with zeros to a
minimum width. -/
def padZeros (w : Nat) (n : Nat) : String :=
  let s := toString n
  if s.length < w then String.mk (List.replicate (w - s.length) '0') ++ s else s

/-- Python `f"{q:.6f}"`: the value rounded (half-even) to six decimal digits,
in fixed-point notation. The source formats binary doubles; here the
rounding is taken on the exact rational. -/
def fmt6 (q : ℚ) : String :=
  let n := roundHalfEven (q * 1000000)
  let sign := if q < 0 then "-" else ""
  let a := n.natAbs
  sign ++ toString (a / 1000000) ++ "." ++ padZeros 6 (a % 1000000)

/-- The `_TZ_CACHE` key `f"{lat:.6f},{lon:.6f}"`. -/
def coordKey (lat lon : ℚ) : String := fmt6 lat ++ "," ++ fmt6 lon

/-- The dict `timezone_for_coords` returns on success:
`{"timeZone": ..., "offset": ...}`. The source stores whatever values its
field probing produced, so both components stay JSON values. -/
structure TzDict where
  timeZone : JVal
  offset : JVal

/-- The module-level `_TZ_CACHE`: coordinate key to `(timezone id, offset)`.
Assignment is modelled by prepending, with `List.lookup` finding the most
recent binding. -/
def TzCache := List (String × (JVal × JVal))

/-- Network behaviour of the four endpoints `timezone_for_coords` contacts,
the configured `settings.locationiq_key`, and an oracle for the inner
`zoneinfo` computation of the reverse-geocode block (`ZoneInfo(tz)` and
`utcoffset()` at the current instant; `none` models any exception there,
which that block catches and turns into the `"+00:00"` default). -/
structure TzWorld where
  locationiq_key : Option String
  liq_tz : HttpResult
  timeapi : HttpResult
  openmeteo_tz : HttpResult
  openmeteo_geo : HttpResult
  zoneinfoOffset : JVal → Option Int

/-- Python `x is None` on a JSON value. -/
def isNull : JVal → Bool
  | .jnull => true
  | _ => false

/-- Parsing code of the LocationIQ `/v1/timezone.php` block: probe
`timezone`/`zone_name`/`timeZone` (descending into a nested object's
`name`/`zone_name`), probe `utc_offset`/`offset`, falling back to
`gmt_offset`/`raw_offset` seconds converted through `format_offset`; cache
and return when both the zone and the offset are truthy. -/
def liqTzHandler (key : String) (cache : TzCache) (data : JVal) : StepResult TzDict TzCache :=
  match dictGet data "timezone" with
  | .error e => .error e
  | .ok t1 =>
    match dictGet data "zone_name" with
    | .error e => .error e
    | .ok t2 =>
      match dictGet data "timeZone" with
      | .error e => .error e
      | .ok t3 =>
        let tz0 := pyOr (pyOr t1 t2) t3
        match (match tz0 with
               | .jobj fl =>
                 match dictGet (.jobj fl) "name" with
                 | .error e => .error e
                 | .ok n1 =>
                   match dictGet (.jobj fl) "zone_name" with
                   | .error e => .error e
                   | .ok n2 => .ok (pyOr n1 n2)
               | t => .ok t : Except PyExc JVal) with
        | .error e => .error e
        | .ok tz =>
          match dictGet data "utc_offset" with
          | .error e => .error e
          | .ok o1 =>
            match dictGet data "offset" with
            | .error e => .error e
            | .ok o2 =>
              match (match pyOr o1 o2 with
                     | .jnull =>
                       match dictGet data "gmt_offset" with
                       | .error e => .error e
                       | .ok g1 =>
                         match dictGet data "raw_offset" with
                         | .error e => .error e
                         | .ok g2 =>
                           match pyOr g1 g2 with
                           | .jnum q => .ok (JVal.jstr (format_offset (pyTrunc q)))
                           | .jbool b => .ok (JVal.jstr (format_offset (if b then 1 else 0)))
                           | _ => .ok JVal.jnull
                     | o => .ok o : Except PyExc JVal) with
              | .error e => .error e
              | .ok off =>
                if jTruthy tz && jTruthy off then
                  .ok (some (⟨tz, off⟩, (key, (tz, off)) :: cache))
                else .ok none

/-- Parsing code of the `timeapi.io` block: read `timeZone`, then
`standardUtcOffset.seconds` (default `{}` for the outer key), preferring it
when not `None`; otherwise `currentUtcOffset.seconds`; convert through
`int` and `format_offset`, cache and return. -/
def timeapiHandler (key : String) (cache : TzCache) (data : JVal) : StepResult TzDict TzCache :=
  match dictGet data "timeZone" with
  | .error e => .error e
  | .ok tz =>
    match dictGetD data "standardUtcOffset" (.jobj []) with
    | .error e => .error e
    | .ok so =>
      match dictGet so "seconds" with
      | .error e => .error e
      | .ok osec =>
        if jTruthy tz && !(isNull osec) then
          match pyInt osec with
          | .error e => .error e
          | .ok n =>
              .ok (some (⟨tz, .jstr (format_offset n)⟩,
                         (key, (tz, .jstr (format_offset n))) :: cache))
        else
          match dictGetD data "currentUtcOffset" (.jobj []) with
          | .error e => .error e
          | .ok co =>
            match dictGet co "seconds" with
            | .error e => .error e
            | .ok osec2 =>
              if jTruthy tz && !(isNull osec2) then
                match pyInt osec2 with
                | .error e => .error e
                | .ok n =>
                    .ok (some (⟨tz, .jstr (format_offset n)⟩,
                               (key, (tz, .jstr (format_offset n))) :: cache))
              else .ok none

/-- Parsing code of the Open-Meteo `/v1/timezone` block: read `timezone` and
`utc_offset_seconds`; convert and return when the zone is truthy and the
seconds are not `None`. -/
def openMeteoTzHandler (key : String) (cache : TzCache) (data : JVal) : StepResult TzDict TzCache :=
  match dictGet data "timezone" with
  | .error e => .error e
  | .ok tz =>
    match dictGet data "utc_offset_seconds" with
    | .error e => .error e
    | .ok osec =>
      if jTruthy tz && !(isNull osec) then
        match pyInt osec with
        | .error e => .error e
        | .ok n =>
            .ok (some (⟨tz, .jstr (format_offset n)⟩,
                       (key, (tz, .jstr (format_offset n))) :: cache))
      else .ok none

/-- Variant of `tryProvider` for the reverse-geocode block, which tests
`r.status_code == 200` instead of calling `raise_for_status`. -/
def tryProvider200 (r : HttpResult) (handler : JVal → StepResult α γ) : StepResult α γ :=
  match r with
  | .transportError => .ok none
  | .response st body =>
      if st = 200 then
        match body with
        | none => .error .valueError
        | some j => handler j
      else .ok none

/-- Parsing code of the reverse-geocode fallback: read
`results[0].get("timezone")`; when truthy, the offset is `"+05:30"` for
`"Asia/Kolkata"`, otherwise the current offset computed through `zoneinfo`
(defaulting to `"+00:00"` when that raises); cache and return. -/
def coordGeoHandler (zoneinfoOffset : JVal → Option Int) (key : String) (cache : TzCache)
    (data : JVal) : StepResult TzDict TzCache :=
  if jTruthy data then
    match dictGet data "results" with
    | .error e => .error e
    | .ok res =>
      if jTruthy res then
        match pySubscript0 res with
        | .error e => .error e
        | .ok item =>
          match dictGet item "timezone" with
          | .error e => .error e
          | .ok tz =>
            if jTruthy tz then
              let off : JVal :=
                match tz with
                | .jstr "Asia/Kolkata" => .jstr "+05:30"
                | _ =>
                  match zoneinfoOffset tz with
                  | some sec => .jstr (format_offset sec)
                  | none => .jstr "+00:00"
              .ok (some (⟨tz, off⟩, (key, (tz, off)) :: cache))
            else .ok none
      else .ok none
  else .ok none

/-- Embedding of `timezone_for_coords(lat, lon)`: the `_TZ_CACHE` lookup
happens before any network call; then LocationIQ (when the key is truthy),
`timeapi.io`, Open-Meteo timezone, the reverse-geocode fallback, and
finally the Indian-subcontinent bounding box `6.0 <= lat <= 37.5 and
68.0 <= lon <= 98.0`, which returns `Asia/Kolkata` / `+05:30`
unconditionally. (The source wraps the box test in a `try`, but `float`
on a float and the comparisons cannot raise.) `None` when everything
falls through. -/
def timezone_for_coords (w : TzWorld) (lat lon : ℚ) (cache : TzCache) :
    Except PyExc (Option TzDict × TzCache) :=
  match List.lookup (coordKey lat lon) cache with
  | some (tzid, off) => .ok (some ⟨tzid, off⟩, cache)
  | none =>
    match (if keyTruthy w.locationiq_key then
              tryProvider w.liq_tz (liqTzHandler (coordKey lat lon) cache)
            else .ok none) with
    | .error e => .error e
    | .ok (some (r, c)) => .ok (some r, c)
    | .ok none =>
      match tryProvider w.timeapi (timeapiHandler (coordKey lat lon) cache) with
      | .error e => .error e
      | .ok (some (r, c)) => .ok (some r, c)
      | .ok none =>
        match tryProvider w.openmeteo_tz (openMeteoTzHandler (coordKey lat lon) cache) with
        | .error e => .error e
        | .ok (some (r, c)) => .ok (some r, c)
        | .ok none =>
          match tryProvider200 w.openmeteo_geo
              (coordGeoHandler w.zoneinfoOffset (coordKey lat lon) cache) with
          | .error e => .error e
          | .ok (some (r, c)) => .ok (some r, c)
          | .ok none =>
            if (6.0 : ℚ) ≤ lat ∧ lat ≤ 37.5 ∧ (68.0 : ℚ) ≤ lon ∧ lon ≤ 98.0 then
              .ok (some ⟨.jstr "Asia/Kolkata", .jstr "+05:30"⟩,
                   (coordKey lat lon, (JVal.jstr "Asia/Kolkata", JVal.jstr "+05:30")) :: cache)
            else .ok (none, cache)

/-!  The period selector (`analyze.py`, `_current_period`). -/

/-- One raw entry of a period list. Timestamps are modelled as already
UTC-normalized instants (integers): `datetime.fromisoformat` followed by the
naive/aware normalization in the source maps every parseable `start`/`end`
string to one absolute instant, and the selector only ever compares such
instants. A `none` field models the `except` path: the key is missing, is
not a string, or holds a string `fromisoformat` rejects. -/
structure RawPeriod where
  name : String
  start : Option Int
  end_ : Option Int
deriving DecidableEq

/-- One pass of the `for p in periods` loop: parse `start` and `end` (any
failure skips the entry) and, when `birth_dt` is given, keep the entry only
if `e >= bd`; a kept entry contributes the tuple `(s, e, p)`. -/
def normalizeEntry (birth_dt : Option Int) (p : RawPeriod) : Option (Int × Int × RawPeriod) :=
  match p.start, p.end_ with
  | some s, some e =>
      match birth_dt with
      | none => some (s, e, p)
      | some bd => if e ≥ bd then some (s, e, p) else none
  | _, _ => none

/-- Embedding of `_current_period(periods, birth_dt, now)`. Input `none`
models a `periods` argument that is not a list (`isinstance` guard). The
filtered tuples keep their input order; the first whose `[s, e]` interval
contains `now` (inclusive) wins; otherwise the filtered list is sorted by
start (Python's stable `list.sort(key=lambda x: x[0])`, modelled by the
stable `List.insertionSort`) and its first element wins; with nothing
filtered, the raw `periods[0]` when the input list is non-empty, else
`None`. -/
def _current_period (periods : Option (List RawPeriod)) (birth_dt : Option Int) (now : Int) :
    Option RawPeriod :=
  match periods with
  | none => none
  | some ps =>
    let filtered := ps.filterMap (normalizeEntry birth_dt)
    match filtered.find? (fun t => decide (t.1 ≤ now ∧ now ≤ t.2.1)) with
    | some t => some t.2.2
    | none =>
      match (List.insertionSort (fun a b => a.1 ≤ b.1) filtered).head? with
      | some t => some t.2.2
      | none => ps.head?

/-!  The compute orchestration (`compute.py`, `compute`, lines 19-44). -/

/-- Python truthiness of the mutable `b.timezone` slot: unset (`None`) or a
falsy value. -/
def tzTruthy : Option JVal → Bool
  | none => false
  | some v => jTruthy v

/-- Python truthiness of `b.location : str | None`. -/
def locTruthy : Option String → Bool
  | none => false
  | some s => decide (s ≠ "")

/-- The mutable part of the `BirthInput` record that the resolution phase of
`compute` reads and writes. -/
structure Birth where
  date : String
  time : String
  timezone : Option JVal
  latitude : Option ℚ
  longitude : Option ℚ
  location : Option String

/-- Failure channel of the resolution phase: an `HTTPException` raised with a
detail string, or a built-in exception that escaped the resolver calls and
is caught by the enclosing `except Exception`. -/
inductive ResolveErr where
  | httpDetail (detail : String)
  | uncaught (e : PyExc)

/-- Spelled-out class name of an escaped exception, used in the
`f"Location resolution failed: {e}"` detail. -/
def pyExcName : PyExc → String
  | .httpError => "HTTPError"
  | .valueError => "ValueError"
  | .typeError => "TypeError"
  | .keyError => "KeyError"
  | .indexError => "IndexError"
  | .attributeError => "AttributeError"

/-- First stage of the `try` block in `compute`: when coordinates are missing
and a location string is present, geocode it (a `None` result raises
`HTTPException` 400 "Could not geocode location"); on success adopt the
coordinates and, when no timezone was supplied and the geocoder carried a
truthy timezone id, try `offset_from_tzid` (abstracted by the oracle `oft`,
whose value depends on the host `zoneinfo` database) at the birth date and
time. -/
def resolveStage1 (gw : GeoWorld) (oft : String → String → JVal → Option String) (b : Birth)
    (gc : GeoCache) : Except ResolveErr (Birth × GeoCache) :=
  if (b.latitude = none ∨ b.longitude = none) ∧ locTruthy b.location then
    match b.location with
    | none => .ok (b, gc)
    | some loc =>
      match geocode_location gw loc gc with
      | .error e => .error (.uncaught e)
      | .ok (none, _) => .error (.httpDetail "Could not geocode location")
      | .ok (some geo, gc') =>
          let b1 := { b with latitude := some geo.latitude, longitude := some geo.longitude }
          if tzTruthy b1.timezone then .ok (b1, gc')
          else
            match geo.timezone with
            | none => .ok (b1, gc')
            | some tzv =>
                match oft b.date b.time tzv with
                | some off =>
                    if off = "" then .ok (b1, gc')
                    else .ok ({ b1 with timezone := some (.jstr off) }, gc')
                | none => .ok (b1, gc')
  else .ok (b, gc)

/-- Second stage: when the timezone is still falsy and both coordinates are
known, derive the offset from `timezone_for_coords`, adopting it when the
result dict and its `offset` are truthy. -/
def resolveStage2 (tw : TzWorld) (b : Birth) (tc : TzCache) :
    Except ResolveErr (Birth × TzCache) :=
  match b.latitude, b.longitude with
  | some la, some lo =>
      if tzTruthy b.timezone then .ok (b, tc)
      else
        match timezone_for_coords tw la lo tc with
        | .error e => .error (.uncaught e)
        | .ok (none, tc') => .ok (b, tc')
        | .ok (some tzr, tc') =>
            if jTruthy tzr.offset then .ok ({ b with timezone := some tzr.offset }, tc')
            else .ok (b, tc')
  | _, _ => .ok (b, tc)

/-- Body of the `try` block of `compute` (lines 19-40): stage 1, stage 2,
then the fail-fast guard `if not b.timezone: raise HTTPException(400,
"timezone_unresolved: ...")`. -/
def resolveBirthInner (gw : GeoWorld) (tw : TzWorld)
    (oft : String → String → JVal → Option String) (b : Birth) (gc : GeoCache) (tc : TzCache) :
    Except ResolveErr (Birth × GeoCache × TzCache) :=
  match resolveStage1 gw oft b gc with
  | .error e => .error e
  | .ok (b1, gc1) =>
    match resolveStage2 tw b1 tc with
    | .error e => .error e
    | .ok (b2, tc1) =>
        if tzTruthy b2.timezone then .ok (b2, gc1, tc1)
        else .error (.httpDetail
          "timezone_unresolved: Unable to determine timezone offset. Please confirm location explicitly.")

/-- Exception handling of the `try` block of `compute`: `HTTPException`s
re-raise as-is, any other exception becomes `HTTPException(400,
f"Location resolution failed: ...")`. An `Except.error` carries the detail
string of the raised exception; an `Except.ok` value is the resolved birth
record the chart computation then uses. -/
def resolveBirth (gw : GeoWorld) (tw : TzWorld) (oft : String → String → JVal → Option String)
    (b : Birth) (gc : GeoCache) (tc : TzCache) :
    Except String (Birth × GeoCache × TzCache) :=
  match resolveBirthInner gw tw oft b gc tc with
  | .ok v => .ok v
  | .error (.httpDetail d) => .error d
  | .error (.uncaught e) => .error ("Location resolution failed: " ++ pyExcName e)

/-!  Helper lemmas. -/

/-- Boolean form of the two-digit/two-character property of `pad2 n`. -/
def pad2Ok (n : Nat) : Bool :=
  match (pad2 n).data with
  | [a, b] => a.isDigit && b.isDigit
  | _ => false

theorem pad2Ok_range : (List.range 100).all pad2Ok = true := by decide

theorem pad2_shape (n : Nat) (h : n < 100) :
    ∃ a b, (pad2 n).data = [a, b] ∧ a.isDigit = true ∧ b.isDigit = true := by
  have hp : pad2Ok n = true := by
    have hall := pad2Ok_range
    rw [List.all_eq_true] at hall
    exact hall n (List.mem_range.mpr h)
  unfold pad2Ok at hp
  cases hd : (pad2 n).data with
  | nil => rw [hd] at hp; exact absurd hp (by simp)
  | cons a t =>
    cases t with
    | nil => rw [hd] at hp; exact absurd hp (by simp)
    | cons b t2 =>
      cases t2 with
      | nil =>
          rw [hd] at hp
          have hab : (a.isDigit && b.isDigit) = true := hp
          rcases (Bool.and_eq_true _ _).mp hab with ⟨ha, hb⟩
          exact ⟨a, b, rfl, ha, hb⟩
      | cons c t3 => rw [hd] at hp; exact absurd hp (by simp)

/-! Claim C1: the output format of `format_offset`. -/

/-- C1 (amended): for every integer number of seconds s with |s| < 360000
(hours below 100), `format_offset(s)` matches `[+-]` then two digits, a
colon, and two digits. (For |s| ≥ 360000 the zero-padded hour field widens
to three or more digits, refuting the unrestricted claim.) -/
theorem format_offset_matches_pattern (s : Int) (h : s.natAbs < 360000) :
    matchesOffsetPattern (format_offset s) = true := by
  have hh : s.natAbs / 3600 < 100 := by omega
  have hm : s.natAbs % 3600 / 60 < 100 := by omega
  obtain ⟨a, b, hab, ha, hb⟩ := pad2_shape _ hh
  obtain ⟨c, d, hcd, hc, hd⟩ := pad2_shape _ hm
  show matchesOffsetPattern ((if (0:Int) ≤ s then "+" else "-") ++
    pad2 (s.natAbs / 3600) ++ ":" ++ pad2 (s.natAbs % 3600 / 60)) = true
  by_cases hs : (0:Int) ≤ s
  · rw [if_pos hs]
    unfold matchesOffsetPattern
    rw [String.data_append, String.data_append, String.data_append, hab, hcd,
      show ("+" : String).data = ['+'] from rfl, show (":" : String).data = [':'] from rfl]
    simp [ha, hb, hc, hd]
  · rw [if_neg hs]
    unfold matchesOffsetPattern
    rw [String.data_append, String.data_append, String.data_append, hab, hcd,
      show ("-" : String).data = ['-'] from rfl, show (":" : String).data = [':'] from rfl]
    simp [ha, hb, hc, hd]

/-- Witness for C1 at s = 19800 (the spec's `+05:30` example). -/
theorem format_offset_matches_pattern_witness :
    (19800 : Int).natAbs < 360000 ∧ matchesOffsetPattern (format_offset 19800) = true :=
  ⟨by decide, format_offset_matches_pattern 19800 (by decide)⟩

/-- Counterexample for C1 as stated: at s = 360000 (one hundred hours) the
hour field has three digits, so the output does not match the pattern
`[+-]` two digits, colon, two digits. -/
theorem format_offset_pattern_cex :
    format_offset 360000 = "+100:00" ∧ matchesOffsetPattern (format_offset 360000) = false := by
  exact ⟨rfl, rfl⟩

/-!  Period-selector lemmas. -/

theorem current_period_some_eq (ps : List RawPeriod) (birth : Option Int) (now : Int) :
    _current_period (some ps) birth now =
      match (ps.filterMap (normalizeEntry birth)).find?
          (fun t => decide (t.1 ≤ now ∧ now ≤ t.2.1)) with
      | some t => some t.2.2
      | none =>
        match (List.insertionSort (fun a b => a.1 ≤ b.1)
            (ps.filterMap (normalizeEntry birth))).head? with
        | some t => some t.2.2
        | none => ps.head? := rfl

theorem normalizeEntry_some (birth : Option Int) (p : RawPeriod) (t : Int × Int × RawPeriod)
    (h : normalizeEntry birth p = some t) :
    t.2.2 = p ∧ p.start = some t.1 ∧ p.end_ = some t.2.1 ∧
      ∀ bd, birth = some bd → bd ≤ t.2.1 := by
  rcases hs : p.start with _ | s <;> rcases he : p.end_ with _ | e <;>
    rcases hb : birth with _ | bd <;>
    simp only [normalizeEntry, hs, he, hb, Option.some.injEq] at h <;>
    try cases h
  · exact ⟨rfl, rfl, rfl, fun bd hbd => by cases hbd⟩
  · by_cases hge : e ≥ bd
    · rw [if_pos hge] at h
      simp only [Option.some.injEq] at h
      rcases h with rfl
      exact ⟨rfl, rfl, rfl, fun bd2 hbd2 => by cases hbd2; exact hge⟩
    · rw [if_neg hge] at h
      cases h

theorem filtered_mem (birth : Option Int) (ps : List RawPeriod) (t : Int × Int × RawPeriod)
    (h : t ∈ ps.filterMap (normalizeEntry birth)) :
    t.2.2 ∈ ps ∧ t.2.2.start = some t.1 ∧ t.2.2.end_ = some t.2.1 ∧
      ∀ bd, birth = some bd → bd ≤ t.2.1 := by
  rcases List.mem_filterMap.mp h with ⟨p, hp, hnorm⟩
  rcases normalizeEntry_some birth p t hnorm with ⟨h22, hst, hen, hbd⟩
  rw [h22]
  exact ⟨hp, hst, hen, hbd⟩

theorem current_period_result_filtered (ps : List RawPeriod) (birth : Option Int) (now : Int)
    (q : RawPeriod)
    (hne : ps.filterMap (normalizeEntry birth) ≠ [])
    (hres : _current_period (some ps) birth now = some q) :
    ∃ t ∈ ps.filterMap (normalizeEntry birth), t.2.2 = q := by
  rw [current_period_some_eq] at hres
  cases hfind : (ps.filterMap (normalizeEntry birth)).find?
      (fun t => decide (t.1 ≤ now ∧ now ≤ t.2.1)) with
  | some t =>
      rw [hfind] at hres
      refine ⟨t, List.mem_of_find?_eq_some hfind, ?_⟩
      simpa using hres
  | none =>
      rw [hfind] at hres
      cases hsort : (List.insertionSort (fun a b => a.1 ≤ b.1)
          (ps.filterMap (normalizeEntry birth))) with
      | nil =>
          have hperm := (List.perm_insertionSort
            (fun (a b : Int × Int × RawPeriod) => a.1 ≤ b.1)
            (ps.filterMap (normalizeEntry birth))).symm
          rw [hsort] at hperm
          exact absurd hperm.eq_nil hne
      | cons x xs =>
          rw [hsort] at hres
          simp only [List.head?] at hres
          refine ⟨x, ?_, by simpa using hres⟩
          have hx : x ∈ List.insertionSort
              (fun (a b : Int × Int × RawPeriod) => a.1 ≤ b.1)
              (ps.filterMap (normalizeEntry birth)) := by
            rw [hsort]; exact List.mem_cons_self x xs
          exact (List.perm_insertionSort _ _).mem_iff.mp hx

theorem current_period_empty_filtered (ps : List RawPeriod) (birth : Option Int) (now : Int)
    (hnil : ps.filterMap (normalizeEntry birth) = []) :
    _current_period (some ps) birth now = ps.head? := by
  rw [current_period_some_eq, hnil]
  rfl

/-! Claim C6: the first surviving candidate whose interval contains the
reference instant wins. -/

/-- C6: when the filtered candidate list splits as `pre ++ t :: rest` with no
entry of `pre` containing `now` and `t.1 ≤ now ≤ t.2.1` (both ends
inclusive), `_current_period` returns `t`'s period — the first candidate,
in original relative order, whose interval contains the reference
instant. -/
theorem current_period_first_containing (ps : List RawPeriod) (birth : Option Int) (now : Int)
    (pre : List (Int × Int × RawPeriod)) (t : Int × Int × RawPeriod)
    (rest : List (Int × Int × RawPeriod))
    (hsplit : ps.filterMap (normalizeEntry birth) = pre ++ t :: rest)
    (hpre : ∀ u ∈ pre, ¬(u.1 ≤ now ∧ now ≤ u.2.1))
    (h1 : t.1 ≤ now) (h2 : now ≤ t.2.1) :
    _current_period (some ps) birth now = some t.2.2 := by
  rw [current_period_some_eq, hsplit]
  have hnone : pre.find? (fun u => decide (u.1 ≤ now ∧ now ≤ u.2.1)) = none :=
    List.find?_eq_none.mpr (fun x hx => by simpa using hpre x hx)
  rw [List.find?_append, hnone, List.find?_cons]
  simp [h1, h2]

/-- Witness for C6: the spec's example — periods A = [2020-01-01, 2020-06-01]
and B = [2020-06-01, 2021-01-01] with reference instant 2020-08-01 select
B. -/
theorem current_period_first_containing_witness :
    _current_period
        (some [⟨"A", some 20200101, some 20200601⟩, ⟨"B", some 20200601, some 20210101⟩])
        none 20200801 = some ⟨"B", some 20200601, some 20210101⟩ :=
  current_period_first_containing
    [⟨"A", some 20200101, some 20200601⟩, ⟨"B", some 20200601, some 20210101⟩] none 20200801
    [(20200101, 20200601, ⟨"A", some 20200101, some 20200601⟩)]
    (20200601, 20210101, ⟨"B", some 20200601, some 20210101⟩) []
    (by decide) (by decide) (by decide) (by decide)

/-! Claim C7: fallback to the earliest surviving candidate. -/

/-- C7: when no surviving candidate's interval contains the reference
instant and at least one candidate survives, `_current_period` returns some
surviving candidate whose start is minimal among all survivors (the sort-by-
start-and-take-first fallback), rather than reporting absence. -/
theorem current_period_earliest_fallback (ps : List RawPeriod) (birth : Option Int) (now : Int)
    (fl : List (Int × Int × RawPeriod))
    (hfl : ps.filterMap (normalizeEntry birth) = fl)
    (hnone : ∀ u ∈ fl, ¬(u.1 ≤ now ∧ now ≤ u.2.1))
    (hne : fl ≠ []) :
    ∃ t, t ∈ fl ∧ (∀ u ∈ fl, t.1 ≤ u.1) ∧
      _current_period (some ps) birth now = some t.2.2 := by
  haveI hTot : IsTotal (Int × Int × RawPeriod) (fun a b => a.1 ≤ b.1) :=
    ⟨fun a b => le_total a.1 b.1⟩
  haveI hTrans : IsTrans (Int × Int × RawPeriod) (fun a b => a.1 ≤ b.1) :=
    ⟨fun a b c hab hbc => le_trans hab hbc⟩
  have hfind : fl.find? (fun u => decide (u.1 ≤ now ∧ now ≤ u.2.1)) = none :=
    List.find?_eq_none.mpr (fun x hx => by simpa using hnone x hx)
  cases hsort : List.insertionSort (fun (a b : Int × Int × RawPeriod) => a.1 ≤ b.1) fl with
  | nil =>
      have hperm := (List.perm_insertionSort
        (fun (a b : Int × Int × RawPeriod) => a.1 ≤ b.1) fl).symm
      rw [hsort] at hperm
      exact absurd hperm.eq_nil hne
  | cons x xs =>
      have hperm := List.perm_insertionSort
        (fun (a b : Int × Int × RawPeriod) => a.1 ≤ b.1) fl
      rw [hsort] at hperm
      have hxmem : x ∈ fl := hperm.mem_iff.mp (List.mem_cons_self x xs)
      have hsorted := List.sorted_insertionSort
        (fun (a b : Int × Int × RawPeriod) => a.1 ≤ b.1) fl
      rw [hsort] at hsorted
      refine ⟨x, hxmem, ?_, ?_⟩
      · intro u hu
        rcases List.mem_cons.mp (hperm.mem_iff.mpr hu) with rfl | hmem
        · exact le_refl _
        · exact List.rel_of_sorted_cons hsorted u hmem
      · rw [current_period_some_eq, hfl, hfind, hsort]
        rfl

/-- Witness for C7: the spec's example — reference instant 2025-01-01 lies
after both intervals, and period A (the earliest start) is returned. -/
theorem current_period_earliest_fallback_witness :
    (∃ t, t ∈ [((20200101 : Int), (20200601 : Int), (⟨"A", some 20200101, some 20200601⟩ : RawPeriod)),
               (20200601, 20210101, ⟨"B", some 20200601, some 20210101⟩)] ∧
      (∀ u ∈ [((20200101 : Int), (20200601 : Int), (⟨"A", some 20200101, some 20200601⟩ : RawPeriod)),
              (20200601, 20210101, ⟨"B", some 20200601, some 20210101⟩)], t.1 ≤ u.1) ∧
      _current_period
        (some [⟨"A", some 20200101, some 20200601⟩, ⟨"B", some 20200601, some 20210101⟩])
        none 20250101 = some t.2.2) ∧
    _current_period
        (some [⟨"A", some 20200101, some 20200601⟩, ⟨"B", some 20200601, some 20210101⟩])
        none 20250101 = some ⟨"A", some 20200101, some 20200601⟩ :=
  ⟨current_period_earliest_fallback
    [⟨"A", some 20200101, some 20200601⟩, ⟨"B", some 20200601, some 20210101⟩] none 20250101
    [(20200101, 20200601, ⟨"A", some 20200101, some 20200601⟩),
     (20200601, 20210101, ⟨"B", some 20200601, some 20210101⟩)]
    (by decide) (by decide) (by decide), by decide⟩

/-! Claim C5: pre-birth periods are excluded — as long as some candidate
survives the filter. -/

/-- C5 (amended): when a birth instant is supplied, a period whose end is
strictly before it is never selected, provided at least one candidate
survives normalization and the birth filter; when nothing survives, the
last-resort `periods[0]` default can still return such a period (see the
counterexample). -/
theorem current_period_birth_excludes (ps : List RawPeriod) (bd now : Int) (p : RawPeriod)
    (e : Int) (hend : p.end_ = some e) (hlt : e < bd)
    (hne : ps.filterMap (normalizeEntry (some bd)) ≠ []) :
    _current_period (some ps) (some bd) now ≠ some p := by
  intro hres
  rcases current_period_result_filtered ps (some bd) now p hne hres with ⟨t, htmem, ht⟩
  rcases filtered_mem (some bd) ps t htmem with ⟨_, _, hen, hbd⟩
  rw [ht, hend] at hen
  injection hen with he
  have hble := hbd bd rfl
  omega

/-- Witness for C5 on the spec's example shape: periods A and B with birth
instant 2020-07-01 and a reference inside A — A (which ended before birth)
is not selected. -/
theorem current_period_birth_excludes_witness :
    _current_period
        (some [⟨"A", some 20200101, some 20200601⟩, ⟨"B", some 20200601, some 20210101⟩])
        (some 20200701) 20200301 ≠ some ⟨"A", some 20200101, some 20200601⟩ :=
  current_period_birth_excludes
    [⟨"A", some 20200101, some 20200601⟩, ⟨"B", some 20200601, some 20210101⟩]
    20200701 20200301 ⟨"A", some 20200101, some 20200601⟩ 20200601
    rfl (by decide) (by decide)

/-- Counterexample for C5 as stated: when period A is the only entry and
its end 2020-06-01 precedes the birth instant 2020-07-01, nothing survives
the filter, and the `periods[0]` last resort returns A itself although the
reference instant 2020-03-01 lies inside A's interval. -/
theorem current_period_birth_excludes_cex :
    (20200601 : Int) < 20200701 ∧ (20200101 : Int) ≤ 20200301 ∧ (20200301 : Int) ≤ 20200601 ∧
      _current_period (some [⟨"A", some 20200101, some 20200601⟩]) (some 20200701) 20200301 =
        some ⟨"A", some 20200101, some 20200601⟩ := by
  refine ⟨by decide, by decide, by decide, by decide⟩

/-! Claim C2: a singleton list whose entry has unparseable timestamps. -/

/-- C2 (amended): on a one-entry list whose entry has an unparseable start
or end, the entry is skipped during normalization, nothing survives, and
`_current_period` returns `periods[0]` — that same malformed entry — as the
last-resort default, rather than raising or returning nothing. -/
theorem current_period_single_malformed (p : RawPeriod) (birth : Option Int) (now : Int)
    (h : p.start = none ∨ p.end_ = none) :
    _current_period (some [p]) birth now = some p := by
  have hn : normalizeEntry birth p = none := by
    rcases hs : p.start with _ | s <;> rcases he : p.end_ with _ | e <;>
      simp only [normalizeEntry, hs, he]
    rcases h with h | h
    · rw [hs] at h; cases h
    · rw [he] at h; cases h
  have hnil : ([p] : List RawPeriod).filterMap (normalizeEntry birth) = [] := by
    simp [hn]
  rw [current_period_empty_filtered [p] birth now hnil]
  rfl

/-- Witness for C2 at a concrete malformed entry. -/
theorem current_period_single_malformed_witness :
    _current_period (some [⟨"X", none, some 5⟩]) none 0 = some ⟨"X", none, some 5⟩ :=
  current_period_single_malformed ⟨"X", none, some 5⟩ none 0 (Or.inl rfl)

/-- Counterexample for C2 as stated: the singleton list with an unparseable
start does not make `_current_period` return nothing. -/
theorem current_period_single_malformed_cex :
    _current_period (some [⟨"X", none, some 5⟩]) none 0 ≠ none := by decide

/-! Claim C10: the selector only ever returns `None` or an element of its
input. -/

/-- C10: for every input, `_current_period` returns either nothing or some
element of the original input list; it never fabricates a period record. -/
theorem current_period_returns_input_element (po : Option (List RawPeriod)) (birth : Option Int)
    (now : Int) :
    _current_period po birth now = none ∨
      ∃ ps p, po = some ps ∧ p ∈ ps ∧ _current_period po birth now = some p := by
  cases po with
  | none => exact Or.inl rfl
  | some ps =>
    cases hres : _current_period (some ps) birth now with
    | none => exact Or.inl rfl
    | some q =>
      right
      by_cases hnil : ps.filterMap (normalizeEntry birth) = []
      · have hres2 := hres
        rw [current_period_empty_filtered ps birth now hnil] at hres2
        cases ps with
        | nil => cases hres2
        | cons a l =>
            have haq : a = q := by injection hres2
            exact ⟨a :: l, q, rfl, haq ▸ List.mem_cons_self a l, rfl⟩
      · rcases current_period_result_filtered ps birth now q hnil hres with ⟨t, htmem, ht⟩
        rcases filtered_mem birth ps t htmem with ⟨hmem, _, _, _⟩
        exact ⟨ps, q, rfl, ht ▸ hmem, rfl⟩

/-!  Fallback-chain lemmas. -/

theorem tryProvider_fail {α γ : Type} (r : HttpResult) (h : JVal → StepResult α γ)
    (hf : HttpFailed r) : tryProvider r h = .ok none := by
  cases r with
  | transportError => rfl
  | response st body =>
      simp only [tryProvider]
      rw [if_neg hf]

theorem tryProvider200_fail {α γ : Type} (r : HttpResult) (h : JVal → StepResult α γ)
    (hf : HttpFailed r) : tryProvider200 r h = .ok none := by
  cases r with
  | transportError => rfl
  | response st body =>
      simp only [tryProvider200]
      rw [if_neg]
      intro h200
      subst h200
      exact hf (by norm_num)

/-! Claim C8: a cached query with no keyed provider configured. -/

/-- C8: when `settings.locationiq_key` is falsy and the query is in
`_GEO_CACHE`, `geocode_location` returns the cached triple as a result dict
and leaves the cache unchanged; the right-hand side does not mention the
three network providers at all, so the result is identical for every
possible behaviour of them — no network call is observable. -/
theorem geocode_cached_no_key (w : GeoWorld) (location : String) (cache : GeoCache)
    (v : ℚ × ℚ × JVal)
    (hkey : keyTruthy w.locationiq_key = false)
    (hc : List.lookup location cache = some v) :
    geocode_location w location cache =
      .ok (some { latitude := v.1, longitude := v.2.1, display_name := v.2.2, timezone := none },
           cache) := by
  obtain ⟨lat, lon, name⟩ := v
  unfold geocode_location
  rw [hkey]
  simp only [Bool.false_eq_true, if_false]
  rw [hc]

/-- Witness for C8: the Chennai query of the spec's end-to-end example,
pre-seeded in the cache, with no key configured and every provider
transport-failing. -/
theorem geocode_cached_no_key_witness :
    geocode_location ⟨none, .transportError, .transportError, .transportError⟩ "Chennai, India"
        [("Chennai, India", ((13 : ℚ), (80 : ℚ), JVal.jstr "Chennai, India"))] =
      .ok (some { latitude := 13, longitude := 80, display_name := JVal.jstr "Chennai, India",
                  timezone := none },
           [("Chennai, India", ((13 : ℚ), (80 : ℚ), JVal.jstr "Chennai, India"))]) :=
  geocode_cached_no_key ⟨none, .transportError, .transportError, .transportError⟩
    "Chennai, India" [("Chennai, India", ((13 : ℚ), (80 : ℚ), JVal.jstr "Chennai, India"))]
    ((13 : ℚ), (80 : ℚ), JVal.jstr "Chennai, India") rfl rfl

/-! Claim C3: failures of the primary keyed provider. -/

/-- Counterexample for C3 as stated: with a key configured and the
LocationIQ search returning a 2xx response whose first item lacks the
`lat` field, the `float(item["lat"])` parse failure raises `KeyError`,
which the block's `except httpx.HTTPError` clause does not catch — the
exception escapes `geocode_location` instead of falling through to the
next provider. -/
theorem geocode_parse_failure_escapes_cex :
    geocode_location
        ⟨some "k", .response 200 (some (.jarr [.jobj [("lon", .jnum 80)]])),
         .transportError, .transportError⟩ "Delhi" [] = .error .keyError := rfl

/-- C3 (amended): every failure of the primary keyed provider that the code
catches — a transport error or a non-2xx HTTP status — causes fall-through
to the rest of the chain, which then behaves exactly as if no key were
configured; parsing failures (missing `lat`/`lon` fields, non-numeric
values, undecodable JSON), however, escape `geocode_location` as exceptions
(the `compute` orchestration catches them one level up). -/
theorem geocode_httpfail_falls_through (w : GeoWorld) (location : String) (cache : GeoCache)
    (hkey : keyTruthy w.locationiq_key = true)
    (hfail : HttpFailed w.liq) :
    geocode_location w location cache =
      geocode_location { w with locationiq_key := none } location cache := by
  unfold geocode_location
  rw [hkey]
  simp only [if_true]
  rw [tryProvider_fail _ _ hfail]
  simp only [keyTruthy, Bool.false_eq_true, if_false]

/-- Witness for C3 at a transport-failing LocationIQ call with a configured
key. -/
theorem geocode_httpfail_falls_through_witness :
    geocode_location ⟨some "k", .transportError, .transportError, .transportError⟩ "Delhi" [] =
      geocode_location ⟨none, .transportError, .transportError, .transportError⟩ "Delhi" [] :=
  geocode_httpfail_falls_through ⟨some "k", .transportError, .transportError, .transportError⟩
    "Delhi" [] rfl trivial

/-!  Claim C4: the Indian-subcontinent bounding-box fallback. -/

theorem tz_cache_hit (w : TzWorld) (lat lon : ℚ) (cache : TzCache) (tzid off : JVal)
    (hc : List.lookup (coordKey lat lon) cache = some (tzid, off)) :
    timezone_for_coords w lat lon cache = .ok (some ⟨tzid, off⟩, cache) := by
  unfold timezone_for_coords
  rw [hc]

theorem tz_allfail_inbox (w : TzWorld) (lat lon : ℚ) (cache : TzCache)
    (hc : List.lookup (coordKey lat lon) cache = none)
    (h1 : (6.0 : ℚ) ≤ lat) (h2 : lat ≤ 37.5) (h3 : (68.0 : ℚ) ≤ lon) (h4 : lon ≤ 98.0)
    (f1 : HttpFailed w.liq_tz) (f2 : HttpFailed w.timeapi)
    (f3 : HttpFailed w.openmeteo_tz) (f4 : HttpFailed w.openmeteo_geo) :
    timezone_for_coords w lat lon cache =
      .ok (some ⟨.jstr "Asia/Kolkata", .jstr "+05:30"⟩,
           (coordKey lat lon, (JVal.jstr "Asia/Kolkata", JVal.jstr "+05:30")) :: cache) := by
  have hstep1 : (if keyTruthy w.locationiq_key then
        tryProvider w.liq_tz (liqTzHandler (coordKey lat lon) cache)
      else .ok none) = (Except.ok none : StepResult TzDict TzCache) := by
    by_cases hk : keyTruthy w.locationiq_key = true
    · rw [if_pos hk]; exact tryProvider_fail _ _ f1
    · rw [if_neg hk]
  unfold timezone_for_coords
  rw [hc, hstep1, tryProvider_fail _ _ f2, tryProvider_fail _ _ f3, tryProvider200_fail _ _ f4,
    if_pos ⟨h1, h2, h3, h4⟩]

/-- C4: for coordinates inside `6.0 ≤ lat ≤ 37.5`, `68.0 ≤ lon ≤ 98.0`, when
every network provider fails (transport error or non-2xx status),
`timezone_for_coords` still returns a result — never `None` — and, when the
coordinate key is not already cached, that result is exactly
`Asia/Kolkata` with offset `+05:30`, written through to `_TZ_CACHE`. (A
pre-seeded cache entry is returned as-is instead; with all providers
failing, the only value this code ever writes for such a key is the
Kolkata one.) -/
theorem tz_inbox_resolves (w : TzWorld) (lat lon : ℚ) (cache : TzCache)
    (h1 : (6.0 : ℚ) ≤ lat) (h2 : lat ≤ 37.5) (h3 : (68.0 : ℚ) ≤ lon) (h4 : lon ≤ 98.0)
    (f1 : HttpFailed w.liq_tz) (f2 : HttpFailed w.timeapi)
    (f3 : HttpFailed w.openmeteo_tz) (f4 : HttpFailed w.openmeteo_geo) :
    (∃ r c, timezone_for_coords w lat lon cache = .ok (some r, c)) ∧
      (List.lookup (coordKey lat lon) cache = none →
        timezone_for_coords w lat lon cache =
          .ok (some ⟨.jstr "Asia/Kolkata", .jstr "+05:30"⟩,
               (coordKey lat lon, (JVal.jstr "Asia/Kolkata", JVal.jstr "+05:30")) :: cache)) := by
  constructor
  · cases hc : List.lookup (coordKey lat lon) cache with
    | some v =>
        obtain ⟨tzid, off⟩ := v
        exact ⟨⟨tzid, off⟩, cache, tz_cache_hit w lat lon cache tzid off hc⟩
    | none =>
        exact ⟨_, _, tz_allfail_inbox w lat lon cache hc h1 h2 h3 h4 f1 f2 f3 f4⟩
  · intro hc
    exact tz_allfail_inbox w lat lon cache hc h1 h2 h3 h4 f1 f2 f3 f4

/-- Witness for C4 at New Delhi (28.6139, 77.2090) with an empty cache and
every provider transport-failing: the offset obtained is `+05:30`. -/
theorem tz_inbox_resolves_witness :
    (∃ r c, timezone_for_coords
        ⟨none, .transportError, .transportError, .transportError, .transportError, fun _ => none⟩
        (286139/10000) (772090/10000) ([] : TzCache) = .ok (some r, c)) ∧
      (List.lookup (coordKey (286139/10000) (772090/10000)) ([] : TzCache) = none →
        timezone_for_coords
          ⟨none, .transportError, .transportError, .transportError, .transportError, fun _ => none⟩
          (286139/10000) (772090/10000) ([] : TzCache) =
        .ok (some ⟨.jstr "Asia/Kolkata", .jstr "+05:30"⟩,
             (coordKey (286139/10000) (772090/10000),
              (JVal.jstr "Asia/Kolkata", JVal.jstr "+05:30")) :: ([] : TzCache))) :=
  tz_inbox_resolves
    ⟨none, .transportError, .transportError, .transportError, .transportError, fun _ => none⟩
    (286139/10000) (772090/10000) ([] : TzCache)
    (by norm_num) (by norm_num) (by norm_num) (by norm_num)
    trivial trivial trivial trivial

/-!  Claim C9: the fail-fast guard on an unresolved offset. -/

/-- C9: whenever the resolution phase of `compute` completes without raising
(`Except.ok`), the resolved birth record carries a truthy timezone offset —
the guard `if not b.timezone: raise HTTPException(400,
"timezone_unresolved: ...")` makes an unresolved offset a terminal failure,
so chart computation never proceeds without one. -/
theorem resolveBirth_offset_present (gw : GeoWorld) (tw : TzWorld)
    (oft : String → String → JVal → Option String) (b : Birth) (gc : GeoCache) (tc : TzCache)
    (b' : Birth) (rest : GeoCache × TzCache)
    (h : resolveBirth gw tw oft b gc tc = .ok (b', rest)) :
    tzTruthy b'.timezone = true := by
  have hinner : resolveBirthInner gw tw oft b gc tc = .ok (b', rest) := by
    unfold resolveBirth at h
    split at h
    · next v heq =>
        cases h
        exact heq
    · cases h
    · cases h
  unfold resolveBirthInner at hinner
  split at hinner
  · cases hinner
  · split at hinner
    · cases hinner
    · split at hinner
      · next ht =>
          injection hinner with hv
          have hb : _ = b' := congrArg Prod.fst hv
          rw [← hb]
          exact ht
      · cases hinner

/-- Witness for C9: a fully supplied birth record (offset `+05:30`,
coordinates present) resolves as-is, and the theorem yields the truthiness
of its offset. -/
theorem resolveBirth_offset_present_witness :
    tzTruthy (Birth.mk "1990-01-01" "12:00" (some (.jstr "+05:30")) (some 13) (some 80)
        (some "Chennai, India")).timezone = true :=
  resolveBirth_offset_present
    ⟨none, .transportError, .transportError, .transportError⟩
    ⟨none, .transportError, .transportError, .transportError, .transportError, fun _ => none⟩
    (fun _ _ _ => none)
    (Birth.mk "1990-01-01" "12:00" (some (.jstr "+05:30")) (some 13) (some 80)
      (some "Chennai, India"))
    [] []
    (Birth.mk "1990-01-01" "12:00" (some (.jstr "+05:30")) (some 13) (some 80)
      (some "Chennai, India"))
    ([], []) rfl

end Astro
